import Mathlib

set_option autoImplicit false

/-! Shallow embedding of the Log Classification & Evidence Assembly Engine of the
dispute-resolution service (utils/blockchain.js `BlockchainService`, and the backfill
step of controllers/disputeController.js `resolveDispute`), together with proofs about
the claims of its specification.

JavaScript strings are modelled as `List Char` (`JStr`).  The service is written
against the ethers v6 API (`new ethers.JsonRpcProvider`, top-level `ethers.getAddress`
and `ethers.isAddress` exist only in v6), so the behavior of the ethers library
functions it calls is modelled from the documented v6 semantics.  The decisive v6
facts, each noted again at its definition:

* `Interface.parseLog` returns `null` when the first topic does not match any event of
  the interface (v5 threw there); it throws only when a matching fragment's argument
  layout fails to decode, or when `log.topics[0]` is `undefined` (no topics).
* `ethers.getAddress` accepts any 40-hex-digit string (lowercase input is never
  checksum-checked) and returns the 20-byte address; it does not look at anything
  beyond the 40 digits it is given.
* abi word reads throw `data out-of-bounds` when the blob is too short; decoding an
  `address` word throws when the value does not fit in 20 bytes; trailing unread bytes
  are ignored. -/

/-- A JavaScript string, as a list of characters. -/
abbrev JStr := List Char

/-- Hex digit, either case (JS `BigInt` / ethers hex parsing accept both). -/
def isHexDigitCh (c : Char) : Bool :=
  (('0' ≤ c) && (c ≤ '9')) || (('a' ≤ c) && (c ≤ 'f')) || (('A' ≤ c) && (c ≤ 'F'))

/-- Lowercase hex digit (the form JSON-RPC providers emit). -/
def isLowerHexCh (c : Char) : Bool :=
  (('0' ≤ c) && (c ≤ '9')) || (('a' ≤ c) && (c ≤ 'f'))

/-- Numeric value of a hex digit. -/
def hexDigitVal (c : Char) : Nat :=
  if ('0' ≤ c) && (c ≤ '9') then c.toNat - '0'.toNat
  else if ('a' ≤ c) && (c ≤ 'f') then c.toNat - 'a'.toNat + 10
  else if ('A' ≤ c) && (c ≤ 'F') then c.toNat - 'A'.toNat + 10
  else 0

/-- Value of a hex-digit string. -/
def hexVal (cs : JStr) : Nat := cs.foldl (fun acc c => 16 * acc + hexDigitVal c) 0

/-- JS `BigInt('0x' + cs)`: succeeds iff `cs` is a nonempty string of hex digits,
    otherwise a SyntaxError is thrown (modelled as `none`). -/
def hexToNat? (cs : JStr) : Option Nat :=
  if cs ≠ [] ∧ cs.all isHexDigitCh then some (hexVal cs) else none

/-- Pairs of hex digits to bytes; `none` on an odd length or a non-hex digit. -/
def hexPairsToBytes? : JStr → Option (List Nat)
  | [] => some []
  | [_] => none
  | c1 :: c2 :: rest =>
    if isHexDigitCh c1 ∧ isHexDigitCh c2 then
      (hexPairsToBytes? rest).map (fun bs => (16 * hexDigitVal c1 + hexDigitVal c2) :: bs)
    else none

/-- ethers `getBytes`: requires a `0x` prefix and an even number of hex digits,
    throwing otherwise (modelled as `none`). -/
def getBytes? (s : JStr) : Option (List Nat) :=
  match s with
  | '0' :: 'x' :: rest => hexPairsToBytes? rest
  | _ => none

/-- ethers `isHexString(s, 32)`: a `0x` prefix followed by exactly 64 hex digits. -/
def isHexString32 (s : JStr) : Bool :=
  match s with
  | '0' :: 'x' :: rest => rest.length == 64 && rest.all isHexDigitCh
  | _ => false

/-- JS `toLowerCase` on a string. -/
def toLowerL (s : JStr) : JStr := s.map Char.toLower

/-- Big-endian value of a byte list. -/
def beVal (bs : List Nat) : Nat := bs.foldl (fun acc b => 256 * acc + b) 0

/-- One 32-byte word at word index `i` of an abi blob; the ethers v6 `Reader` raises
    `data out-of-bounds` when the blob is too short (modelled as `.error`). -/
def readWord (bs : List Nat) (i : Nat) : Except Unit Nat :=
  if 32 * (i + 1) ≤ bs.length then .ok (beVal ((bs.drop (32 * i)).take 32)) else .error ()

/-- Left-pad a digit string with zeros to `k` digits. -/
def padLeftZeros (k : Nat) (cs : JStr) : JStr := List.replicate (k - cs.length) '0' ++ cs

/-- ethers v6 address decoding, `getAddress(toBeHex(word, 20))`: throws when the word
    does not fit in 20 bytes; the result is modelled as the lowercase hex form (the
    real library returns the EIP-55 mixed-case form; the model uses the lowercase
    spelling consistently everywhere addresses are produced or compared). -/
def decodeAddressWord (w : Nat) : Except Unit JStr :=
  if w < 2 ^ 160 then .ok ('0' :: 'x' :: padLeftZeros 40 (Nat.toDigits 16 w)) else .error ()

/-- Byte concatenation of the non-selector topics (`concat(topics.slice(1))` inside
    `decodeEventLog`); an invalid hex topic makes `getBytes` throw. -/
def concatBytes? : List JStr → Option (List Nat)
  | [] => some []
  | t :: ts =>
    match getBytes? t, concatBytes? ts with
    | some a, some b => some (a ++ b)
    | _, _ => none

/-- keccak256 of `Transfer(address,address,uint256)` — the selector topic shared by
    the ERC-20 `Transfer`, ERC-721 `Transfer` and DummyDisputeContract `Transfer`
    events (the hash depends only on the signature, which is identical for all
    three; they differ only in which parameters are indexed). -/
def transferTopicS : String :=
  "0xddf252ad1be2c89b69c2b068fc378daa952ba7f163c4a11628f55a4df523b3ef"

/-- keccak256 of `TransferFailed(address,address,uint256,string)`.  For the four
    dispute-contract selectors below, no theorem depends on the digest's digits —
    only on its shape (66 lowercase hex chars) and on the five selectors being
    pairwise distinct — so they are modelled as fixed distinct constants. -/
def transferFailedTopicS : String :=
  "0xaaaa000000000000000000000000000000000000000000000000000000000001"

/-- keccak256 of `PartialTransfer(address,address,uint256,uint256)` (modelled digest,
    see `transferFailedTopicS`). -/
def partXferTopicS : String :=
  "0xaaaa000000000000000000000000000000000000000000000000000000000002"

/-- keccak256 of `TokenMinted(address,uint256)` (modelled digest). -/
def tokenMintedTopicS : String :=
  "0xaaaa000000000000000000000000000000000000000000000000000000000003"

/-- keccak256 of `TokenTransferFailed(address,address,uint256,string)` (modelled
    digest). -/
def tokenXferFailedTopicS : String :=
  "0xaaaa000000000000000000000000000000000000000000000000000000000004"

def transferTopicL : JStr := transferTopicS.data
def transferFailedTopicL : JStr := transferFailedTopicS.data
def partXferTopicL : JStr := partXferTopicS.data
def tokenMintedTopicL : JStr := tokenMintedTopicS.data
def tokenXferFailedTopicL : JStr := tokenXferFailedTopicS.data

/-- Every event selector some schema family of the registry recognizes. -/
def knownSelectors : List JStr :=
  [transferTopicL, transferFailedTopicL, partXferTopicL, tokenMintedTopicL,
    tokenXferFailedTopicL]

/-- A raw receipt log as delivered by the provider: `topics` (first entry is the
    event selector), the `data` payload hex string, and the log index. -/
structure RawLog where
  topics : List JStr
  data : JStr
  logIndex : Nat
deriving DecidableEq

/-- Result of `new ethers.Interface(ERC20_ABI).parseLog(log)` (a `LogDescription`
    restricted to the one event of that abi). -/
structure ERC20Dec where
  name : String
  fromA : JStr
  toA : JStr
  value : Nat
deriving DecidableEq

/-- Result of `new ethers.Interface(ERC721_ABI).parseLog(log)`. -/
structure ERC721Dec where
  name : String
  fromA : JStr
  toA : JStr
  tokenId : Nat
deriving DecidableEq

/-- Result of `new ethers.Interface(DUMMY_DISPUTE_CONTRACT_ABI).parseLog(log)`: one
    constructor per event of the abi (the constructor plays the role of
    `parsedLog.name`). -/
inductive DummyDec where
  | transferE (fromA toA : JStr) (amount : Nat)
  | transferFailedE (fromA toA : JStr) (amount : Nat) (reason : JStr)
  | partXferE (fromA toA : JStr) (requested sent : Nat)
  | tokenMintedE (toA : JStr) (tokenId : Nat)
  | tokenXferFailedE (fromA toA : JStr) (tokenId : Nat) (reason : JStr)
deriving DecidableEq

/-- Shared abi decode of the `(address indexed, address indexed, uint256)` Transfer
    layout — the event fragment is literally the same for the ERC-20 interface and
    the dispute-contract interface, so one definition serves both. -/
def decodeTransferAAU (rest : List JStr) (data : JStr) : Except Unit (JStr × JStr × Nat) :=
  match concatBytes? rest with
  | none => .error ()
  | some tb =>
    match readWord tb 0, readWord tb 1 with
    | .ok w0, .ok w1 =>
      match decodeAddressWord w0, decodeAddressWord w1 with
      | .ok a, .ok b =>
        match getBytes? data with
        | none => .error ()
        | some db =>
          match readWord db 0 with
          | .ok v => .ok (a, b, v)
          | .error _ => .error ()
      | _, _ => .error ()
    | _, _ => .error ()

/-- abi decode of a dynamic `string` argument whose offset word sits at word `slot`
    of the data blob (ethers decodes non-indexed event data in loose mode, which
    tolerates an unpadded tail but still requires the offset, length and content
    bytes to be present). -/
def decodeDynString (db : List Nat) (slot : Nat) : Except Unit JStr :=
  match readWord db slot with
  | .error _ => .error ()
  | .ok off =>
    if off + 32 ≤ db.length then
      let len := beVal ((db.drop off).take 32)
      if off + 32 + len ≤ db.length then
        .ok (((db.drop (off + 32)).take len).map Char.ofNat)
      else .error ()
    else .error ()

/-- abi decode of the `(address indexed, address indexed, uint256, string)` layout of
    `TransferFailed` and `TokenTransferFailed`. -/
def decodeFailedAAUS (rest : List JStr) (data : JStr) :
    Except Unit (JStr × JStr × Nat × JStr) :=
  match concatBytes? rest with
  | none => .error ()
  | some tb =>
    match readWord tb 0, readWord tb 1 with
    | .ok w0, .ok w1 =>
      match decodeAddressWord w0, decodeAddressWord w1 with
      | .ok a, .ok b =>
        match getBytes? data with
        | none => .error ()
        | some db =>
          match readWord db 0, decodeDynString db 1 with
          | .ok v, .ok s => .ok (a, b, v, s)
          | _, _ => .error ()
      | _, _ => .error ()
    | _, _ => .error ()

/-- abi decode of the `(address indexed, address indexed, uint256, uint256)` layout of
    `PartialTransfer`. -/
def decodePartAAUU (rest : List JStr) (data : JStr) :
    Except Unit (JStr × JStr × Nat × Nat) :=
  match concatBytes? rest with
  | none => .error ()
  | some tb =>
    match readWord tb 0, readWord tb 1 with
    | .ok w0, .ok w1 =>
      match decodeAddressWord w0, decodeAddressWord w1 with
      | .ok a, .ok b =>
        match getBytes? data with
        | none => .error ()
        | some db =>
          match readWord db 0, readWord db 1 with
          | .ok r, .ok s => .ok (a, b, r, s)
          | _, _ => .error ()
      | _, _ => .error ()
    | _, _ => .error ()

/-- abi decode of the `(address indexed, uint256)` layout of `TokenMinted`. -/
def decodeMintedAU (rest : List JStr) (data : JStr) : Except Unit (JStr × Nat) :=
  match concatBytes? rest with
  | none => .error ()
  | some tb =>
    match readWord tb 0 with
    | .ok w0 =>
      match decodeAddressWord w0 with
      | .ok a =>
        match getBytes? data with
        | none => .error ()
        | some db =>
          match readWord db 0 with
          | .ok v => .ok (a, v)
          | .error _ => .error ()
      | .error _ => .error ()
    | .error _ => .error ()

/-- ethers v6 `Interface(ERC20_ABI).parseLog(log)`.  v6 semantics: with no topics at
    all, `getEvent(log.topics[0])` receives `undefined` and raises a TypeError
    (`.error`); an unrecognized 32-byte topic hash yields a `null` result (`.ok
    none`) — NOT an exception, the decisive difference from ethers v5; a matching
    topic hash whose argument layout fails to decode raises (`.error`).  A first
    topic that is not a 32-byte hex string goes through `getEvent`'s name/signature
    lookup, which for this interface yields either `null` or a throw that leaves the
    log equally unclassified (the decode's `fragment/topic mismatch` assertion can
    never pass for a non-hash topic); it is modelled as `null`. -/
def parseLogERC20 (log : RawLog) : Except Unit (Option ERC20Dec) :=
  match log.topics with
  | [] => .error ()
  | t0 :: rest =>
    if isHexString32 t0 ∧ toLowerL t0 = transferTopicL then
      match decodeTransferAAU rest log.data with
      | .ok (a, b, v) => .ok (some ⟨"Transfer", a, b, v⟩)
      | .error _ => .error ()
    else .ok none

/-- ethers v6 `Interface(ERC721_ABI).parseLog(log)`; same v6 semantics as
    `parseLogERC20`.  The ERC-721 `Transfer` has three indexed parameters and no
    data parameters, so it needs three non-selector topics; the data blob is still
    passed through `getBytes` (invalid hex throws) but no word is read from it. -/
def parseLogERC721 (log : RawLog) : Except Unit (Option ERC721Dec) :=
  match log.topics with
  | [] => .error ()
  | t0 :: rest =>
    if isHexString32 t0 ∧ toLowerL t0 = transferTopicL then
      match concatBytes? rest with
      | none => .error ()
      | some tb =>
        match readWord tb 0, readWord tb 1, readWord tb 2 with
        | .ok w0, .ok w1, .ok w2 =>
          match decodeAddressWord w0, decodeAddressWord w1 with
          | .ok a, .ok b =>
            match getBytes? log.data with
            | none => .error ()
            | some _ => .ok (some ⟨"Transfer", a, b, w2⟩)
          | _, _ => .error ()
        | _, _, _ => .error ()
    else .ok none

/-- ethers v6 `Interface(DUMMY_DISPUTE_CONTRACT_ABI).parseLog(log)`; same v6
    semantics as `parseLogERC20`, with one fragment per event of the abi. -/
def parseLogDummy (log : RawLog) : Except Unit (Option DummyDec) :=
  match log.topics with
  | [] => .error ()
  | t0 :: rest =>
    if isHexString32 t0 then
      if toLowerL t0 = transferTopicL then
        match decodeTransferAAU rest log.data with
        | .ok (a, b, v) => .ok (some (.transferE a b v))
        | .error _ => .error ()
      else if toLowerL t0 = transferFailedTopicL then
        match decodeFailedAAUS rest log.data with
        | .ok (a, b, v, s) => .ok (some (.transferFailedE a b v s))
        | .error _ => .error ()
      else if toLowerL t0 = partXferTopicL then
        match decodePartAAUU rest log.data with
        | .ok (a, b, r, sn) => .ok (some (.partXferE a b r sn))
        | .error _ => .error ()
      else if toLowerL t0 = tokenMintedTopicL then
        match decodeMintedAU rest log.data with
        | .ok (a, v) => .ok (some (.tokenMintedE a v))
        | .error _ => .error ()
      else if toLowerL t0 = tokenXferFailedTopicL then
        match decodeFailedAAUS rest log.data with
        | .ok (a, b, v, s) => .ok (some (.tokenXferFailedE a b v s))
        | .error _ => .error ()
      else .ok none
    else .ok none

/-- A transfer record pushed into `parsedLogs.transfers`.  The JS objects carry
    different keys per family (`value` for ERC-20, `tokenId` for ERC-721 and
    TokenMinted, `amount` for the MonadToken transfer; TokenMinted has no `from`);
    an absent key is modelled as `none`.  `type` is the JS `type` field; `fromA` /
    `toA` are the JS `from` / `to` fields (`from` is a Lean keyword). -/
structure TransferRec where
  type : String
  fromA : Option JStr
  toA : Option JStr
  value : Option JStr
  amount : Option JStr
  tokenId : Option JStr
  logIndex : Nat
deriving DecidableEq

/-- A failure record pushed into `parsedLogs.failures` (`TransferFailed` carries
    `amount`, `TokenTransferFailed` carries `tokenId`). -/
structure FailureRec where
  type : String
  fromA : JStr
  toA : JStr
  amount : Option JStr
  tokenId : Option JStr
  reason : JStr
  logIndex : Nat
deriving DecidableEq

/-- A record pushed into the bundle's partial-transfer sequence. -/
structure PartXferRec where
  type : String
  fromA : JStr
  toA : JStr
  requested : JStr
  sent : JStr
  logIndex : Nat
deriving DecidableEq

/-- One `{type, value}` entry of the heuristic decoder's `indexedParams` /
    `nonIndexedParams` arrays. -/
structure Param where
  type : String
  value : JStr
deriving DecidableEq

/-- A heuristic event pushed into `parsedLogs.unknownEvents`; `fromA`/`toA`/`amount`
    are `null` (`none`) unless the pattern inference fills them. -/
structure UnknownEventRec where
  type : String
  eventSignature : JStr
  fromA : Option JStr
  toA : Option JStr
  amount : Option JStr
  indexedParams : List Param
  nonIndexedParams : List Param
  logIndex : Nat
  rawData : JStr
deriving DecidableEq

/-- The `parsedLogs` accumulator of `BlockchainService.parseLogs` — the evidence
    bundle.  The JS field `partialTransfers` is named `partTransfers` here (its JS
    spelling collides with a Lean keyword prefix); `contractInfo` is created as `{}`
    and never written by `parseLogs`. -/
structure ParsedLogs where
  transfers : List TransferRec
  failures : List FailureRec
  partTransfers : List PartXferRec
  contractType : Option String
  contractInfo : List (String × JStr)
  unknownEvents : List UnknownEventRec
deriving DecidableEq

/-- The fresh accumulator built at the top of `parseLogs`. -/
def initParsedLogs : ParsedLogs :=
  { transfers := [], failures := [], partTransfers := [], contractType := none,
    contractInfo := [], unknownEvents := [] }

/-- Heuristic decoding of one non-selector topic (`parseLogs` lines 624-637): a
    66-char topic has its first 26 chars (`0x` + 24 hex digits = 12 bytes) dropped
    and the remaining 40 chars passed to `ethers.getAddress`; on success the topic
    becomes an `address` param, on failure (or a non-66-char topic) it is kept as an
    opaque `bytes32` param.  `getAddress` succeeds on any 40 lowercase hex digits —
    the high-order 12 bytes of the topic are never inspected.  (Mixed-case input
    would additionally be checksum-validated by the real library; provider topics
    are lowercase, and the model treats non-lowercase hex as failing.) -/
def heuristicTopicParam (t : JStr) : Param :=
  if t.length = 66 then
    if (t.drop 26).all isLowerHexCh then ⟨"address", '0' :: 'x' :: t.drop 26⟩
    else ⟨"bytes32", t⟩
  else ⟨"bytes32", t⟩

/-- One 64-hex-char chunk of the data payload: decoded as a `uint256` decimal string
    when `BigInt` accepts it, kept as opaque `bytes` otherwise. -/
def chunkParam (c : JStr) : Param :=
  match hexToNat? c with
  | some v => ⟨"uint256", (toString v).data⟩
  | none => ⟨"bytes", '0' :: 'x' :: c⟩

/-- The chunking loop over `log.data.slice(2)`, fuelled for structural recursion
    (each step consumes 64 characters, so `cs.length` steps always suffice). -/
def chunkParamsGo : Nat → JStr → List Param
  | 0, _ => []
  | fuel + 1, cs =>
    if 64 ≤ cs.length then chunkParam (cs.take 64) :: chunkParamsGo fuel (cs.drop 64)
    else []

/-- The chunking loop over `log.data.slice(2)` (`parseLogs` lines 643-657): consume
    64-char chunks; a shorter trailing chunk is silently dropped (the JS loop checks
    `chunk.length === chunkSize`). -/
def chunkParams (cs : JStr) : List Param :=
  chunkParamsGo cs.length cs

/-- The heuristic decoder's `nonIndexedParams`: empty when `log.data` is falsy or
    `'0x'`, otherwise the chunking of the string after its first two chars. -/
def heurNonIndexed (data : JStr) : List Param :=
  if data = [] ∨ data = ['0', 'x'] then [] else chunkParams (data.drop 2)

/-- Is the `i`-th heuristic indexed param an address?  (JS
    `indexedParams[i].type === 'address'`, guarded by the length check.) -/
def paramIsAddr (p? : Option Param) : Bool :=
  match p? with
  | some p => p.type == "address"
  | none => false

/-- The heuristic event built for an unmatched log (`parseLogs` lines 618-695):
    topic pattern inference fills `from`/`to`/`amount` for the Transfer-shaped
    pattern (at least two leading address-like topics), only `from` for the
    single-address pattern, nothing otherwise. -/
def heurEvent (t0 : JStr) (rest : List JStr) (data : JStr) (idx : Nat) : UnknownEventRec :=
  let ips := rest.map heuristicTopicParam
  let nips := heurNonIndexed data
  if 2 ≤ ips.length ∧ paramIsAddr (ips.get? 0) ∧ paramIsAddr (ips.get? 1) then
    { type := "Transfer", eventSignature := t0,
      fromA := (ips.get? 0).map Param.value, toA := (ips.get? 1).map Param.value,
      amount :=
        match nips with
        | p :: _ => if p.type == "uint256" then some p.value else none
        | [] => none,
      indexedParams := ips, nonIndexedParams := nips, logIndex := idx, rawData := data }
  else if 1 ≤ ips.length ∧ paramIsAddr (ips.get? 0) then
    { type := "SingleAddress", eventSignature := t0,
      fromA := (ips.get? 0).map Param.value, toA := none, amount := none,
      indexedParams := ips, nonIndexedParams := nips, logIndex := idx, rawData := data }
  else
    { type := "Unknown", eventSignature := t0, fromA := none, toA := none,
      amount := none, indexedParams := ips, nonIndexedParams := nips,
      logIndex := idx, rawData := data }

/-- The tail of the per-log loop body for a log nothing classified (`!parsed`): with
    at least one topic, push exactly one heuristic event and set `contractType` to
    `'Unknown'` only when it is still unset; with no topics, do nothing at all. -/
def finishUnparsed (s : ParsedLogs) (log : RawLog) : ParsedLogs :=
  match log.topics with
  | [] => s
  | t0 :: rest =>
    { s with
      unknownEvents := s.unknownEvents ++ [heurEvent t0 rest log.data log.logIndex],
      contractType :=
        match s.contractType with
        | none => some "Unknown"
        | some t => some t }

/-- The ERC-20 success arm (`parseLogs` lines 516-526). -/
def applyERC20 (s : ParsedLogs) (d : ERC20Dec) (idx : Nat) : ParsedLogs :=
  { s with
    transfers := s.transfers ++
      [{ type := "ERC20", fromA := some d.fromA, toA := some d.toA,
         value := some (toString d.value).data, amount := none, tokenId := none,
         logIndex := idx }],
    contractType := some "ERC20" }

/-- The ERC-721 success arm (`parseLogs` lines 533-543). -/
def applyERC721 (s : ParsedLogs) (d : ERC721Dec) (idx : Nat) : ParsedLogs :=
  { s with
    transfers := s.transfers ++
      [{ type := "ERC721", fromA := some d.fromA, toA := some d.toA,
         value := none, amount := none, tokenId := some (toString d.tokenId).data,
         logIndex := idx }],
    contractType := some "ERC721" }

/-- The dispute-contract switch (`parseLogs` lines 551-609); every arm sets
    `contractType` to `'MonadDummyContract'`. -/
def applyDummy (s : ParsedLogs) (d : DummyDec) (idx : Nat) : ParsedLogs :=
  match d with
  | .transferE a b v =>
    { s with
      transfers := s.transfers ++
        [{ type := "MonadToken", fromA := some a, toA := some b, value := none,
           amount := some (toString v).data, tokenId := none, logIndex := idx }],
      contractType := some "MonadDummyContract" }
  | .transferFailedE a b v r =>
    { s with
      failures := s.failures ++
        [{ type := "TransferFailed", fromA := a, toA := b,
           amount := some (toString v).data, tokenId := none, reason := r,
           logIndex := idx }],
      contractType := some "MonadDummyContract" }
  | .partXferE a b rq sn =>
    { s with
      partTransfers := s.partTransfers ++
        [{ type := "PartialTransfer", fromA := a, toA := b,
           requested := (toString rq).data, sent := (toString sn).data,
           logIndex := idx }],
      contractType := some "MonadDummyContract" }
  | .tokenMintedE b v =>
    { s with
      transfers := s.transfers ++
        [{ type := "TokenMinted", fromA := none, toA := some b, value := none,
           amount := none, tokenId := some (toString v).data, logIndex := idx }],
      contractType := some "MonadDummyContract" }
  | .tokenXferFailedE a b v r =>
    { s with
      failures := s.failures ++
        [{ type := "TokenTransferFailed", fromA := a, toA := b, amount := none,
           tokenId := some (toString v).data, reason := r, logIndex := idx }],
      contractType := some "MonadDummyContract" }

/-- The per-log loop body of `parseLogs` (lines 508-702).  The try/catch cascade of
    the source reaches the ERC-721 attempt only when the ERC-20 `parseLog` THREW
    (`.error`), and the dispute-contract attempt only when the ERC-721 attempt also
    threw; a `null` return (`.ok none`) skips the catch blocks and falls directly
    through to the unknown-event handling.  A successful parse whose `name` check
    fails (impossible for these interfaces, kept for fidelity) also falls through
    with `parsed` still false. -/
def stepLog (s : ParsedLogs) (log : RawLog) : ParsedLogs :=
  match parseLogERC20 log with
  | .ok (some d) =>
    if d.name = "Transfer" then applyERC20 s d log.logIndex else finishUnparsed s log
  | .ok none => finishUnparsed s log
  | .error _ =>
    match parseLogERC721 log with
    | .ok (some d) =>
      if d.name = "Transfer" then applyERC721 s d log.logIndex else finishUnparsed s log
    | .ok none => finishUnparsed s log
    | .error _ =>
      match parseLogDummy log with
      | .ok (some d) => applyDummy s d log.logIndex
      | .ok none => finishUnparsed s log
      | .error _ => finishUnparsed s log

/-- `BlockchainService.parseLogs(logs, contractAddress)` (lines 492-708).  The
    `contractAddress` argument is used in the source only to construct three unused
    `ethers.Contract` objects before the loop; the outer try/catch around the loop
    never fires because every per-log failure is already handled inside the loop. -/
def parseLogs (logs : List RawLog) (_contractAddress : JStr) : ParsedLogs :=
  logs.foldl stepLog initParsedLogs

/-- The metadata slice of a reconstructed contract state (`state.contractInfo`): a JS
    object with per-family keys; an absent key is `none`. -/
structure ContractInfoState where
  symbol : Option JStr
  name : Option JStr
  decimals : Option Nat
  totalSupply : Option Nat
  nextTokenId : Option Nat
deriving DecidableEq

/-- The `contractInfo` object with no keys. -/
def emptyInfo : ContractInfoState :=
  { symbol := none, name := none, decimals := none, totalSupply := none,
    nextTokenId := none }

/-- The `state` object of `BlockchainService.getContractState`. -/
structure ContractState where
  balances : List (JStr × JStr)
  ownership : List (JStr × JStr)
  contractInfo : ContractInfoState
deriving DecidableEq

/-- The chain-read oracle for one `getContractState` run: each read-only contract
    call either yields a value or throws (`.error`), fixed per call target.  The
    fields model `symbol()`, `name()`, `decimals()`, `balanceOf(addr)`,
    `ownerOf(tokenId)`, `getTotalSupply()` and `getNextTokenId()`. -/
structure StateReads where
  symbolR : Except Unit JStr
  nameR : Except Unit JStr
  decimalsR : Except Unit Nat
  balanceOfR : JStr → Except Unit Nat
  ownerOfR : JStr → Except Unit JStr
  totalSupplyR : Except Unit Nat
  nextTokenIdR : Except Unit Nat

/-- The single try block around the three ERC-20 metadata reads (lines 725-731): the
    reads are sequential assignments, so a failure keeps the values already assigned
    and skips the rest of the block. -/
def erc20Info (reads : StateReads) : ContractInfoState :=
  match reads.symbolR with
  | .error _ => emptyInfo
  | .ok s =>
    match reads.nameR with
    | .error _ => { emptyInfo with symbol := some s }
    | .ok n =>
      match reads.decimalsR with
      | .error _ => { emptyInfo with symbol := some s, name := some n }
      | .ok d => { emptyInfo with symbol := some s, name := some n, decimals := some d }

/-- The single try block around the two ERC-721 metadata reads (lines 746-751). -/
def erc721Info (reads : StateReads) : ContractInfoState :=
  match reads.symbolR with
  | .error _ => emptyInfo
  | .ok s =>
    match reads.nameR with
    | .error _ => { emptyInfo with symbol := some s }
    | .ok n => { emptyInfo with symbol := some s, name := some n }

/-- The single try block around the two dispute-contract metadata reads
    (lines 778-783). -/
def monadInfo (reads : StateReads) : ContractInfoState :=
  match reads.totalSupplyR with
  | .error _ => emptyInfo
  | .ok t =>
    match reads.nextTokenIdR with
    | .error _ => { emptyInfo with totalSupply := some t }
    | .ok n => { emptyInfo with totalSupply := some t, nextTokenId := some n }

/-- The guarded `balanceOf` read (`if (toAddress) { try ... }`): nothing is read
    when `toAddress` is null; a failing read leaves `balances` empty. -/
def balancesFor (reads : StateReads) (toAddress : Option JStr) : List (JStr × JStr) :=
  match toAddress with
  | none => []
  | some a =>
    match reads.balanceOfR a with
    | .error _ => []
    | .ok b => [(a, (toString b).data)]

/-- The per-transfer ownership loop: for each transfer of the wanted `type` whose
    `to` strictly equals `toAddress` (JS `===`: a missing `to` never equals
    anything, including null), a lone `ownerOf` read in its own try; a failure
    skips just that entry.  A record of the wanted type always carries a
    `tokenId`; a hypothetical record without one would make `ownerOf(undefined)`
    throw inside the same try, likewise skipping the entry. -/
def ownershipFor (reads : StateReads) (toAddress : Option JStr) (wanted : String)
    (transfers : List TransferRec) : List (JStr × JStr) :=
  transfers.foldl
    (fun acc t =>
      if t.type == wanted &&
          (match t.toA, toAddress with
           | some x, some y => x == y
           | _, _ => false) then
        match t.tokenId with
        | none => acc
        | some tid =>
          match reads.ownerOfR tid with
          | .error _ => acc
          | .ok o => acc ++ [(tid, o)]
      else acc)
    []

/-- `BlockchainService.getContractState(contractAddress, toAddress, parsedLogs)`
    (lines 713-812): dispatch on `parsedLogs.contractType`; an unset or
    unrecognized type returns the empty state without any read. -/
def getContractState (reads : StateReads) (_contractAddress : JStr)
    (toAddress : Option JStr) (p : ParsedLogs) : ContractState :=
  match p.contractType with
  | some "ERC20" =>
    { balances := balancesFor reads toAddress, ownership := [],
      contractInfo := erc20Info reads }
  | some "ERC721" =>
    { balances := balancesFor reads toAddress,
      ownership := ownershipFor reads toAddress "ERC721" p.transfers,
      contractInfo := erc721Info reads }
  | some "MonadDummyContract" =>
    { balances := balancesFor reads toAddress,
      ownership := ownershipFor reads toAddress "TokenMinted" p.transfers,
      contractInfo := monadInfo reads }
  | _ => { balances := [], ownership := [], contractInfo := emptyInfo }

/-- A `getLogs` filter as passed to the provider. -/
structure LogQuery where
  address : JStr
  fromBlock : Int
  toBlock : Int
deriving DecidableEq

/-- The provider oracle for `getHistoricalLogs`: the block-height probe and the
    log-range query each either answer or throw. -/
structure ProviderModel where
  blockNumberRes : Except Unit Int
  getLogsRes : LogQuery → Except Unit (List RawLog)

/-- `BlockchainService.getHistoricalLogs(contractAddress, fromBlock)` (lines
    817-834).  `fromBlock || Math.max(0, currentBlock - 1000)`: both `null` and `0`
    are falsy, so they fall back to the clamped 1000-block window.  Any provider
    error is caught and an empty list returned.  The second component instruments
    the model with the `getLogs` filter actually issued (`none` when the call was
    never reached), so theorems can speak about the queried range. -/
def getHistoricalLogs (prov : ProviderModel) (contractAddress : JStr)
    (fromBlock : Option Int) : List RawLog × Option LogQuery :=
  match prov.blockNumberRes with
  | .error _ => ([], none)
  | .ok currentBlock =>
    let fromBlockNumber : Int :=
      match fromBlock with
      | some b => if b ≠ 0 then b else max 0 (currentBlock - 1000)
      | none => max 0 (currentBlock - 1000)
    let q : LogQuery := { address := contractAddress, fromBlock := fromBlockNumber,
                          toBlock := currentBlock }
    match prov.getLogsRes q with
    | .ok logs => (logs, some q)
    | .error _ => ([], some q)

/-- Step 4 of `resolveDispute` (disputeController.js lines 46-52): when and only
    when the transaction-scoped classification found no transfers, fetch the
    historical logs once (with the default window), reparse them, and append just
    the transfer events to the bundle.  The second component again records the
    issued `getLogs` filter. -/
def applyBackfill (prov : ProviderModel) (contractAddress : JStr)
    (parsed : ParsedLogs) : ParsedLogs × Option LogQuery :=
  if parsed.transfers.length = 0 then
    let hist := getHistoricalLogs prov contractAddress none
    let historicalParsed := parseLogs hist.1 contractAddress
    ({ parsed with transfers := parsed.transfers ++ historicalParsed.transfers },
      hist.2)
  else (parsed, none)

/-- The fields of an ethers transaction response that `analyzeTransactionPattern`
    reads: `to` (null for contract creation), calldata `data`, and `value` in wei. -/
structure TxInfo where
  toA : Option JStr
  data : JStr
  value : Nat
deriving DecidableEq

/-- The fields of a receipt that `analyzeTransactionPattern` reads. -/
structure ReceiptInfo where
  status : Nat
  gasUsed : Option Nat
deriving DecidableEq

/-- The result object of `analyzeTransactionPattern`. -/
structure PatternAnalysis where
  transactionType : String
  valueTransferred : JStr
  eventsEmitted : Nat
  contractInteraction : Bool
  success : Bool
  gasUsed : JStr
  patterns : List String
deriving DecidableEq

/-- One iteration of the event loop in `analyzeTransactionPattern` (lines 893-900),
    threading `(patterns, valueTransferred)`: a heuristic `Transfer` with a truthy
    `amount` appends `'TOKEN_TRANSFER'` (possibly repeatedly) and overwrites
    `valueTransferred`; a `SingleAddress` event appends `'SINGLE_ADDRESS_EVENT'`. -/
def patternStep (acc : List String × JStr) (e : UnknownEventRec) : List String × JStr :=
  match e.amount with
  | some amt =>
    if e.type == "Transfer" ∧ amt ≠ [] then (acc.1 ++ ["TOKEN_TRANSFER"], amt)
    else if e.type == "SingleAddress" then (acc.1 ++ ["SINGLE_ADDRESS_EVENT"], acc.2)
    else acc
  | none =>
    if e.type == "SingleAddress" then (acc.1 ++ ["SINGLE_ADDRESS_EVENT"], acc.2)
    else acc

/-- `BlockchainService.analyzeTransactionPattern(transaction, receipt, parsedLogs)`
    (lines 867-915).  Note the source derives the `TOKEN_TRANSFER` pattern only
    from `parsedLogs.unknownEvents`; schema-classified transfers never contribute,
    and `contractInteraction` additionally requires a non-null `transaction.to`. -/
def analyzeTransactionPattern (tx : TxInfo) (receipt : ReceiptInfo)
    (p : ParsedLogs) : PatternAnalysis :=
  let contractInteraction := tx.toA ≠ none ∧ tx.data ≠ [] ∧ tx.data ≠ ['0', 'x']
  let pv1 : List String × JStr :=
    if 0 < tx.value then (["ETH_TRANSFER"], (toString tx.value).data)
    else ([], ['0'])
  let pv2 : List String × JStr :=
    if 0 < p.unknownEvents.length then p.unknownEvents.foldl patternStep pv1
    else pv1
  let ttype :=
    if pv2.1.contains "ETH_TRANSFER" ∧ contractInteraction then "contract_eth_transfer"
    else if pv2.1.contains "TOKEN_TRANSFER" then "token_transfer"
    else if contractInteraction then "contract_call"
    else if pv2.1.contains "ETH_TRANSFER" then "eth_transfer"
    else "unknown"
  { transactionType := ttype, valueTransferred := pv2.2,
    eventsEmitted := if 0 < p.unknownEvents.length then p.unknownEvents.length else 0,
    contractInteraction := contractInteraction,
    success := receipt.status = 1,
    gasUsed := match receipt.gasUsed with
      | some g => (toString g).data
      | none => ['0'],
    patterns := pv2.1 }

/-- Outcome of `BlockchainService.initProvider` (lines 427-451): either the loop
    broke after a successful probe, or the error `'Failed to initialize provider
    after 3 attempts'` was thrown; both record the number of connection attempts
    made and the sleeps (in ms) performed between attempts. -/
inductive InitOutcome where
  | okC (attemptsMade : Nat) (sleepsMs : List Nat)
  | failC (attemptsMade : Nat) (sleepsMs : List Nat)
deriving DecidableEq

/-- The `while (retries < maxRetries)` loop of `initProvider`, with the loop guard
    expressed through the structurally decreasing `remaining = maxRetries - retries`.
    `probe k` tells whether attempt `k+1` (construct the provider and await
    `getNetwork()`, the network-probe call) succeeds.  On a failed attempt the
    counter is incremented; when it reaches `maxRetries` the fatal error is thrown,
    otherwise the loop sleeps `1000 * retries` ms (the just-failed attempt number
    times one second) and retries. -/
def initLoop (probe : Nat → Bool) (maxRetries : Nat) :
    Nat → Nat → List Nat → InitOutcome
  | retries, 0, sleeps => .okC retries sleeps
  | retries, remaining + 1, sleeps =>
    if probe retries then .okC (retries + 1) sleeps
    else if maxRetries ≤ retries + 1 then .failC (retries + 1) sleeps
    else initLoop probe maxRetries (retries + 1) remaining (sleeps ++ [1000 * (retries + 1)])

/-- `BlockchainService.initProvider()`: `maxRetries = 3`, starting from zero
    retries. -/
def initProvider (probe : Nat → Bool) : InitOutcome :=
  initLoop probe 3 0 3 []

/-- Which schema family the try/catch cascade of `stepLog` classifies a log as, if
    any (it mirrors the cascade's control flow; used to state the amended claim
    about `contractType`). -/
def classifiedFamily (log : RawLog) : Option String :=
  match parseLogERC20 log with
  | .ok (some d) => if d.name = "Transfer" then some "ERC20" else none
  | .ok none => none
  | .error _ =>
    match parseLogERC721 log with
    | .ok (some d) => if d.name = "Transfer" then some "ERC721" else none
    | .ok none => none
    | .error _ =>
      match parseLogDummy log with
      | .ok (some _) => some "MonadDummyContract"
      | _ => none

/-- Did the heuristic decoder recognize the first two non-selector topics as
    addresses?  (The guard of the Transfer-shaped pattern inference.) -/
def firstTwoTopicsAreAddresses (rest : List JStr) : Bool :=
  match rest with
  | r0 :: r1 :: _ =>
    (heuristicTopicParam r0).type == "address" && (heuristicTopicParam r1).type == "address"
  | _ => false

/-- Spec-side predicate of claim C5, following the claim's words: the high-order 12
    bytes (the first 24 hex digits after `0x`) of a 32-byte topic are zero. -/
def hi12BytesZero (t : JStr) : Bool := ((t.drop 2).take 24).all (· == '0')

/-- JS truthiness of the heuristic `amount` field (`null` and the empty string are
    falsy; the decimal strings the decoder produces are never empty). -/
def amountTruthy (a : Option JStr) : Bool :=
  match a with
  | some s => !s.isEmpty
  | none => false

/-- Spec-side signal of claim C7, following the claim's words: a token-transfer
    pattern is observed when any heuristic or schema transfer carries a non-null
    amount (for a schema transfer the transferred quantity is its `value` for the
    fungible family or its `amount` for the dispute family). -/
def specTokenSignal (p : ParsedLogs) : Bool :=
  p.transfers.any (fun t => t.value.isSome || t.amount.isSome) ||
    p.unknownEvents.any (fun e => e.type == "Transfer" && e.amount.isSome)

/-- Spec-side decision table of claim C7, following the claim's words: the three
    signals are native-value transfer (value > 0), contract interaction (call data
    present and non-empty) and the token-transfer pattern (`specTokenSignal`); fixed
    priority contract-interaction-with-value > token-transfer >
    contract-interaction-only > value-transfer-only > unknown, rendered with the
    code's label spellings. -/
def specTransactionType (tx : TxInfo) (p : ParsedLogs) : String :=
  let valueSig := 0 < tx.value
  let interactionSig := tx.data ≠ [] ∧ tx.data ≠ ['0', 'x']
  if valueSig ∧ interactionSig then "contract_eth_transfer"
  else if specTokenSignal p then "token_transfer"
  else if interactionSig then "contract_call"
  else if valueSig then "eth_transfer"
  else "unknown"

/-- The decision table `analyzeTransactionPattern` actually implements (the amended
    claim C7): the token-transfer signal comes only from heuristic `unknownEvents`
    of type `Transfer` with a truthy amount, and contract interaction additionally
    requires a non-null `transaction.to`. -/
def amendedTransactionType (tx : TxInfo) (p : ParsedLogs) : String :=
  let valueSig := 0 < tx.value
  let interactionSig := tx.toA ≠ none ∧ tx.data ≠ [] ∧ tx.data ≠ ['0', 'x']
  let tokenSig := p.unknownEvents.any (fun e => e.type == "Transfer" && amountTruthy e.amount)
  if valueSig ∧ interactionSig then "contract_eth_transfer"
  else if tokenSig then "token_transfer"
  else if interactionSig then "contract_call"
  else if valueSig then "eth_transfer"
  else "unknown"

/-- The pattern tags the event loop of `analyzeTransactionPattern` contributes, in
    order (proof helper for claim C7). -/
def heurPatterns : List UnknownEventRec → List String
  | [] => []
  | e :: es =>
    (match e.amount with
     | some amt =>
       if e.type == "Transfer" ∧ amt ≠ [] then ["TOKEN_TRANSFER"]
       else if e.type == "SingleAddress" then ["SINGLE_ADDRESS_EVENT"]
       else []
     | none => if e.type == "SingleAddress" then ["SINGLE_ADDRESS_EVENT"] else []) ++
      heurPatterns es

/-- A 32-byte topic padding the address `0x…aa` (concrete test vector). -/
def topicA : JStr :=
  "0x00000000000000000000000000000000000000000000000000000000000000aa".data

/-- A 32-byte topic padding the address `0x…bb` (concrete test vector). -/
def topicB : JStr :=
  "0x00000000000000000000000000000000000000000000000000000000000000bb".data

/-- The 20-byte address sitting inside `topicA`. -/
def addrA : JStr := "0x00000000000000000000000000000000000000aa".data

/-- The 20-byte address sitting inside `topicB`. -/
def addrB : JStr := "0x00000000000000000000000000000000000000bb".data

/-- A contract address used as the (unused) `contractAddress` argument. -/
def caddr : JStr := "0x00000000000000000000000000000000000000cc".data

/-- A data payload holding the single abi word `5`. -/
def word5Data : JStr :=
  "0x0000000000000000000000000000000000000000000000000000000000000005".data

/-- A topic holding the abi word `7` (an indexed ERC-721 tokenId). -/
def topicTok7 : JStr :=
  "0x0000000000000000000000000000000000000000000000000000000000000007".data

/-- A well-formed ERC-20-layout `Transfer` log: selector + two address topics, one
    32-byte data word. -/
def log20 : RawLog :=
  { topics := [transferTopicL, topicA, topicB], data := word5Data, logIndex := 1 }

/-- A well-formed ERC-721-layout `Transfer` log: selector + three indexed topics,
    empty data. -/
def log721 : RawLog :=
  { topics := [transferTopicL, topicA, topicB, topicTok7], data := "0x".data,
    logIndex := 0 }

/-- The Scenario-A `TransferFailed` log of claim C3: the dispute-contract selector,
    two padded address topics, and data abi-encoding `(amount = 1500, reason =
    'Amount too high: exceeds 1000')` — word 0 the amount `0x5dc`, word 1 the string
    offset `0x40`, word 2 the byte length `0x1d = 29`, then the 29 utf-8 bytes of
    the reason padded to a word. -/
def logTF : RawLog :=
  { topics := [transferFailedTopicL, topicA, topicB],
    data := ("0x" ++
      "00000000000000000000000000000000000000000000000000000000000005dc" ++
      "0000000000000000000000000000000000000000000000000000000000000040" ++
      "000000000000000000000000000000000000000000000000000000000000001d" ++
      "416d6f756e7420746f6f20686967683a2065786365656473203130303030" ++
      "0000").data,
    logIndex := 3 }

/-- A well-formed `TokenMinted`-layout log of claim C2: the dispute-contract
    selector, one padded address topic, one 32-byte data word (the tokenId). -/
def logMint : RawLog :=
  { topics := [tokenMintedTopicL, topicA], data := word5Data, logIndex := 2 }

/-- A log with an empty topics array (claim C10). -/
def logNoTopics : RawLog := { topics := [], data := "0xdeadbeef".data, logIndex := 9 }

/-- A topic whose high-order 12 bytes are NOT zero (all bytes `0xff`; claim C5). -/
def topicFF : JStr := ('0' :: 'x' :: List.replicate 64 'f')

/-- A read oracle where only the `symbol()` call fails (claim C8). -/
def readsSymFails : StateReads :=
  { symbolR := .error (), nameR := .ok "TOK".data, decimalsR := .ok 18,
    balanceOfR := fun _ => .ok 42, ownerOfR := fun _ => .error (),
    totalSupplyR := .ok 0, nextTokenIdR := .ok 0 }

/-- A provider at block height 5000 that answers every `getLogs` query with no logs
    (claim C6). -/
def provAt5000 : ProviderModel :=
  { blockNumberRes := .ok 5000, getLogsRes := fun _ => .ok [] }

/-- A selector no schema family of the registry recognizes (claim C4). -/
def unknownTopicL : JStr :=
  "0xbbbb000000000000000000000000000000000000000000000000000000000009".data

/-- A log carrying the unrecognized selector plus two padded address topics and one
    data word (claim C4's witness input). -/
def logC4 : RawLog :=
  { topics := [unknownTopicL, topicA, topicB], data := word5Data, logIndex := 4 }

/-- A transaction with calldata and a recipient but zero native value (claim C7). -/
def txCall : TxInfo := { toA := some caddr, data := "0xdeadbeef".data, value := 0 }

/-- A successful receipt (claim C7). -/
def rcptOk : ReceiptInfo := { status := 1, gasUsed := some 21000 }

/-- Scenario C transaction: no recipient calldata, zero value (claim C7). -/
def txScenC : TxInfo := { toA := none, data := "0x".data, value := 0 }

/-- Scenario C receipt (claim C7). -/
def rcptScenC : ReceiptInfo := { status := 1, gasUsed := none }

/-- Is a transfer record tagged with one of the two families that are actually
    reachable through the cascade (claim C2)? -/
def isSchemaFamilyTransfer (t : TransferRec) : Bool :=
  t.type == "ERC20" || t.type == "ERC721"

set_option maxRecDepth 8000

/-- A log with no topics makes all three `parseLog` attempts throw (the interface
    receives `undefined` as the selector) and fails the heuristic guard
    `log.topics.length > 0`, leaving the accumulator untouched (proof helper). -/
theorem stepLog_of_no_topics (s : ParsedLogs) (log : RawLog) (h : log.topics = []) :
    stepLog s log = s := by
  simp only [stepLog, parseLogERC20, parseLogERC721, parseLogDummy, finishUnparsed, h]

/-- Claim C10: a raw log whose topics sequence is empty yields no event of any kind —
    removing it from the batch leaves the entire evidence bundle (all four sequences
    and `contractType`) unchanged. -/
theorem c10_no_topics_log_is_inert (pre post : List RawLog) (log : RawLog)
    (addr : JStr) (h : log.topics = []) :
    parseLogs (pre ++ log :: post) addr = parseLogs (pre ++ post) addr := by
  unfold parseLogs
  rw [List.foldl_append, List.foldl_append, List.foldl_cons,
    stepLog_of_no_topics _ _ h]

/-- Witness for claim C10 at a concrete topicless log. -/
theorem c10_no_topics_log_is_inert_witness :
    logNoTopics.topics = [] ∧ parseLogs [logNoTopics] caddr = parseLogs [] caddr :=
  ⟨rfl, c10_no_topics_log_is_inert [] [] logNoTopics caddr rfl⟩

/-- Claim C1, counterexample: in a batch whose first log is classified by the
    non-fungible family (`contractType` becomes `'ERC721'`), a later log matching
    the fungible family overwrites the already-set `contractType` to `'ERC20'` —
    the source reassigns `parsedLogs.contractType` on every successful
    classification, so the claimed first-family-wins invariant fails. -/
theorem c1_contract_type_counterexample :
    (parseLogs [log721] caddr).contractType = some "ERC721" ∧
    (parseLogs [log721, log20] caddr).contractType = some "ERC20" := by decide

/-- Claim C1 (amended): `contractType` is assigned by every successful schema
    classification, so after each log it holds the family of the latest log any
    family classified (last-wins, not first-wins); the heuristic path writes
    `'Unknown'` only when `contractType` is still unset, and a topicless log leaves
    it untouched. -/
theorem c1_contract_type_amended (s : ParsedLogs) (log : RawLog) :
    (stepLog s log).contractType =
      match classifiedFamily log, log.topics with
      | some f, _ => some f
      | none, [] => s.contractType
      | none, _ :: _ => some (s.contractType.getD "Unknown") := by
  have hfin : ∀ t : ParsedLogs, (finishUnparsed t log).contractType =
      match log.topics with
      | [] => t.contractType
      | _ :: _ => some (t.contractType.getD "Unknown") := by
    intro t
    cases ht : log.topics with
    | nil => simp [finishUnparsed, ht]
    | cons t0 rest => cases hct : t.contractType <;> simp [finishUnparsed, ht, hct]
  cases h20 : parseLogERC20 log with
  | ok o =>
    cases o with
    | some d =>
      by_cases hn : d.name = "Transfer" <;>
        simp [stepLog, classifiedFamily, h20, hn, applyERC20, hfin s] <;>
          (cases log.topics <;> rfl)
    | none =>
      simp [stepLog, classifiedFamily, h20, hfin s] <;> (cases log.topics <;> rfl)
  | error e =>
    cases h721 : parseLogERC721 log with
    | ok o =>
      cases o with
      | some d =>
        by_cases hn : d.name = "Transfer" <;>
          simp [stepLog, classifiedFamily, h20, h721, hn, applyERC721, hfin s] <;>
            (cases log.topics <;> rfl)
      | none =>
        simp [stepLog, classifiedFamily, h20, h721, hfin s] <;>
          (cases log.topics <;> rfl)
    | error e2 =>
      cases hd : parseLogDummy log with
      | ok o =>
        cases o with
        | some d =>
          cases d <;> simp [stepLog, classifiedFamily, h20, h721, hd, applyDummy]
        | none =>
          simp [stepLog, classifiedFamily, h20, h721, hd, hfin s] <;>
            (cases log.topics <;> rfl)
      | error e3 =>
        simp [stepLog, classifiedFamily, h20, h721, hd, hfin s] <;>
          (cases log.topics <;> rfl)

/-- Claim C3: the Scenario-A `TransferFailed` log (dispute selector, two padded
    address topics, data encoding amount 1500 and the reason string) is NOT turned
    into a failure record: the ERC-20 interface returns `null` for the unmatched
    selector, no exception fires, the catch-chain holding the dispute decoder is
    skipped, and the log lands in `unknownEvents` as a heuristic `Transfer` with
    amount `'1500'`; `failures` stays empty and `contractType` becomes `'Unknown'`. -/
theorem c3_scenario_a_eval :
    (parseLogs [logTF] caddr).failures = [] ∧
    (parseLogs [logTF] caddr).transfers = [] ∧
    (parseLogs [logTF] caddr).partTransfers = [] ∧
    (parseLogs [logTF] caddr).unknownEvents.map
        (fun e => (e.type, e.fromA, e.toA, e.amount)) =
      [("Transfer", some addrA, some addrB, some "1500".data)] ∧
    (parseLogs [logTF] caddr).contractType = some "Unknown" := by decide

/-- Claim C5, counterexample: the topic of 32 `0xff` bytes — whose high-order 12
    bytes are NOT zero — is still decoded as a 20-byte address by the heuristic
    decoder (the source unconditionally strips the first 12 bytes and feeds the
    remainder to `getAddress`, never checking the stripped bytes), refuting the
    claimed iff at this input. -/
theorem c5_address_rule_counterexample :
    ¬ (((heuristicTopicParam topicFF).type = "address") ↔ hi12BytesZero topicFF = true) := by
  decide

/-- Claim C5 (amended): a subsequent topic is decoded as a 20-byte address iff it is
    66 characters long and its last 40 characters are (lowercase) hex digits — the
    high-order 12 bytes are dropped unexamined, not required to be zero; every
    other topic is kept as an opaque `bytes32` value. -/
theorem c5_address_rule_amended (t : JStr) :
    (heuristicTopicParam t).type = "address" ↔
      (t.length = 66 ∧ (t.drop 26).all isLowerHexCh = true) := by
  unfold heuristicTopicParam
  by_cases h1 : t.length = 66
  · by_cases h2 : (t.drop 26).all isLowerHexCh = true
    · rw [if_pos h1, if_pos h2]
      exact ⟨fun _ => ⟨h1, h2⟩, fun _ => rfl⟩
    · rw [if_pos h1, if_neg h2]
      exact ⟨fun h => absurd (show ("bytes32" : String) = "address" from h) (by decide),
        fun h => absurd h.2 h2⟩
  · rw [if_neg h1]
    exact ⟨fun h => absurd (show ("bytes32" : String) = "address" from h) (by decide),
      fun h => absurd h.1 h1⟩

/-- When the ERC-20 `parseLog` throws, the dispute-contract `parseLog` throws too
    (proof helper): the ERC-20 attempt throws only for a topicless log — where every
    interface throws — or for a `Transfer`-selector log whose shared
    `(address,address,uint256)` layout failed to decode, and the dispute interface
    decodes that selector with exactly the same layout. -/
theorem erc20_error_dummy_error (log : RawLog)
    (h : parseLogERC20 log = .error ()) : parseLogDummy log = .error () := by
  cases ht : log.topics with
  | nil => simp [parseLogDummy, ht]
  | cons t0 rest =>
    by_cases hc : (isHexString32 t0 = true) ∧ toLowerL t0 = transferTopicL
    · cases hdec : decodeTransferAAU rest log.data with
      | ok abv =>
        obtain ⟨a, b, v⟩ := abv
        simp [parseLogERC20, ht, hc.1, hc.2, hdec] at h
      | error e => simp [parseLogDummy, ht, hc.1, hc.2, hdec]
    · simp [parseLogERC20, ht, hc] at h

/-- The unknown-event tail touches neither `transfers`, `failures` nor the
    partial-transfer sequence (proof helper). -/
theorem finishUnparsed_families (s : ParsedLogs) (log : RawLog) :
    (finishUnparsed s log).transfers = s.transfers ∧
    (finishUnparsed s log).failures = s.failures ∧
    (finishUnparsed s log).partTransfers = s.partTransfers := by
  cases ht : log.topics <;> simp [finishUnparsed, ht]

/-- One step of the classification loop never pushes a failure or a partial
    transfer, and pushes only fungible/non-fungible transfer records (proof
    helper). -/
theorem stepLog_families (s : ParsedLogs) (log : RawLog) :
    (stepLog s log).failures = s.failures ∧
    (stepLog s log).partTransfers = s.partTransfers ∧
    (stepLog s log).transfers.all isSchemaFamilyTransfer =
      s.transfers.all isSchemaFamilyTransfer := by
  cases h20 : parseLogERC20 log with
  | ok o =>
    cases o with
    | some d =>
      by_cases hn : d.name = "Transfer" <;>
        simp [stepLog, h20, hn, applyERC20, isSchemaFamilyTransfer,
          finishUnparsed_families s log]
    | none => simp [stepLog, h20, finishUnparsed_families s log]
  | error e =>
    cases h721 : parseLogERC721 log with
    | ok o =>
      cases o with
      | some d =>
        by_cases hn : d.name = "Transfer" <;>
          simp [stepLog, h20, h721, hn, applyERC721, isSchemaFamilyTransfer,
            finishUnparsed_families s log]
      | none => simp [stepLog, h20, h721, finishUnparsed_families s log]
    | error e2 =>
      have hd := erc20_error_dummy_error log (by cases e; exact h20)
      simp [stepLog, h20, h721, hd, finishUnparsed_families s log]

/-- The loop invariant of claim C2, over any tail of the batch (proof helper). -/
theorem foldl_families (logs : List RawLog) : ∀ s : ParsedLogs,
    ((logs.foldl stepLog s).failures = s.failures ∧
     (logs.foldl stepLog s).partTransfers = s.partTransfers ∧
     (logs.foldl stepLog s).transfers.all isSchemaFamilyTransfer =
       s.transfers.all isSchemaFamilyTransfer) := by
  induction logs with
  | nil => intro s; exact ⟨rfl, rfl, rfl⟩
  | cons l ls ih =>
    intro s
    have h1 := stepLog_families s l
    have h2 := ih (stepLog s l)
    exact ⟨h2.1.trans h1.1, h2.2.1.trans h1.2.1, h2.2.2.trans h1.2.2⟩

/-- Claim C2: the dispute-contract schema family is unreachable.  Because ethers v6
    `parseLog` returns `null` (no exception) for a selector it does not know, the
    catch-chain that would try the dispute-contract decoder runs only when the
    ERC-20 decode THREW — which needs the shared `Transfer` selector — and then the
    dispute decode of that same selector fails identically.  Hence for every batch
    whatsoever, `failures` and the partial-transfer sequence stay empty and every
    classified transfer is tagged `ERC20` or `ERC721`: a well-formed
    `TransferFailed` / `PartialTransfer` / `TokenMinted` / `TokenTransferFailed`
    log is never schema-classified, contradicting the claimed
    first-matching-family classification for the dispute family. -/
theorem c2_dispute_family_unreachable (logs : List RawLog) (addr : JStr) :
    (parseLogs logs addr).failures = [] ∧
    (parseLogs logs addr).partTransfers = [] ∧
    (parseLogs logs addr).transfers.all isSchemaFamilyTransfer = true := by
  have h := foldl_families logs initParsedLogs
  exact ⟨h.1, h.2.1, h.2.2⟩

/-- Every heuristically decoded topic param is an address or an opaque `bytes32` —
    decode failure degrades, it never aborts (proof helper). -/
theorem heuristicTopicParam_type_cases (t : JStr) :
    (heuristicTopicParam t).type = "address" ∨ (heuristicTopicParam t).type = "bytes32" := by
  unfold heuristicTopicParam
  by_cases h1 : t.length = 66
  · by_cases h2 : (t.drop 26).all isLowerHexCh = true
    · rw [if_pos h1, if_pos h2]; exact .inl rfl
    · rw [if_pos h1, if_neg h2]; exact .inr rfl
  · rw [if_neg h1]; exact .inr rfl

/-- Every heuristically decoded data chunk is a `uint256` or opaque `bytes`
    (proof helper). -/
theorem chunkParam_type_cases (c : JStr) :
    (chunkParam c).type = "uint256" ∨ (chunkParam c).type = "bytes" := by
  unfold chunkParam
  cases hexToNat? c
  · exact .inr rfl
  · exact .inl rfl

/-- All indexed params of the heuristic decoder are addresses or opaque values
    (proof helper). -/
theorem indexedParams_all_opaque_or_addr (rest : List JStr) :
    (rest.map heuristicTopicParam).all
      (fun pr => pr.type == "address" || pr.type == "bytes32") = true := by
  rw [List.all_eq_true]
  intro p hp
  obtain ⟨r, -, rfl⟩ := List.mem_map.mp hp
  rcases heuristicTopicParam_type_cases r with h | h <;> simp [h]

/-- All data chunks of the heuristic decoder are integers or opaque bytes
    (proof helper). -/
theorem chunkParamsGo_all_opaque_or_uint (fuel : Nat) : ∀ cs : JStr,
    (chunkParamsGo fuel cs).all
      (fun pr => pr.type == "uint256" || pr.type == "bytes") = true := by
  induction fuel with
  | zero => intro cs; rfl
  | succ n ih =>
    intro cs
    unfold chunkParamsGo
    by_cases h : 64 ≤ cs.length
    · rw [if_pos h]
      rcases chunkParam_type_cases (cs.take 64) with hc | hc <;>
        simp [List.all_cons, hc, ih]
    · rw [if_neg h]
      rfl

/-- The heuristic `nonIndexedParams` consist only of `uint256` and `bytes` entries
    (proof helper). -/
theorem heurNonIndexed_all_opaque_or_uint (d : JStr) :
    (heurNonIndexed d).all (fun pr => pr.type == "uint256" || pr.type == "bytes") = true := by
  unfold heurNonIndexed chunkParams
  by_cases h : d = [] ∨ d = ['0', 'x']
  · rw [if_pos h]; rfl
  · rw [if_neg h]; exact chunkParamsGo_all_opaque_or_uint _ _

/-- The heuristic event's `indexedParams` field is the topic map in every pattern
    branch (proof helper). -/
theorem heurEvent_indexedParams (t0 : JStr) (rest : List JStr) (d : JStr) (i : Nat) :
    (heurEvent t0 rest d i).indexedParams = rest.map heuristicTopicParam := by
  unfold heurEvent
  dsimp only
  split
  · rfl
  · split
    · rfl
    · rfl

/-- The heuristic event's `nonIndexedParams` field is the data chunking in every
    pattern branch (proof helper). -/
theorem heurEvent_nonIndexedParams (t0 : JStr) (rest : List JStr) (d : JStr) (i : Nat) :
    (heurEvent t0 rest d i).nonIndexedParams = heurNonIndexed d := by
  unfold heurEvent
  dsimp only
  split
  · rfl
  · split
    · rfl
    · rfl

/-- Claim C4: for a log whose selector no schema family recognizes, the heuristic
    decoder runs and never raises — the step appends exactly one event to the
    separate `unknownEvents` sequence, leaves `transfers`/`failures`/partial
    transfers untouched (changing `contractType` only from unset to `'Unknown'`),
    both `from` and `to` are populated iff the first two subsequent topics decode
    as addresses, and every decoded field degrades to an opaque param rather than
    failing (`address`/`bytes32` for topics, `uint256`/`bytes` for data chunks). -/
theorem c4_heuristic_never_raises (s : ParsedLogs) (log : RawLog) (t0 : JStr)
    (rest : List JStr) (ht : log.topics = t0 :: rest)
    (hsel : toLowerL t0 ∉ knownSelectors) :
    stepLog s log =
      { s with
        unknownEvents := s.unknownEvents ++ [heurEvent t0 rest log.data log.logIndex],
        contractType := some (s.contractType.getD "Unknown") } ∧
    (((heurEvent t0 rest log.data log.logIndex).fromA.isSome = true ∧
        (heurEvent t0 rest log.data log.logIndex).toA.isSome = true) ↔
      firstTwoTopicsAreAddresses rest = true) ∧
    (heurEvent t0 rest log.data log.logIndex).indexedParams.all
      (fun pr => pr.type == "address" || pr.type == "bytes32") = true ∧
    (heurEvent t0 rest log.data log.logIndex).nonIndexedParams.all
      (fun pr => pr.type == "uint256" || pr.type == "bytes") = true := by
  have hnot : ¬ ((isHexString32 t0 = true) ∧ toLowerL t0 = transferTopicL) := by
    rintro ⟨-, hk⟩
    exact hsel (by rw [hk]; simp [knownSelectors])
  have h20 : parseLogERC20 log = .ok none := by
    simp [parseLogERC20, ht, hnot]
  refine ⟨?_, ?_, ?_, ?_⟩
  · cases hct : s.contractType <;>
      simp [stepLog, h20, finishUnparsed, ht, hct, Option.getD]
  · unfold heurEvent
    cases rest with
    | nil => simp [firstTwoTopicsAreAddresses, paramIsAddr]
    | cons r0 rs =>
      cases rs with
      | nil =>
        by_cases h0 : (heuristicTopicParam r0).type == "address" <;>
          simp [firstTwoTopicsAreAddresses, paramIsAddr, h0, List.get?]
      | cons r1 rs' =>
        by_cases h0 : (heuristicTopicParam r0).type == "address" <;>
          by_cases h1 : (heuristicTopicParam r1).type == "address" <;>
            simp [firstTwoTopicsAreAddresses, paramIsAddr, h0, h1, List.get?]
  · rw [heurEvent_indexedParams]
    exact indexedParams_all_opaque_or_addr rest
  · rw [heurEvent_nonIndexedParams]
    exact heurNonIndexed_all_opaque_or_uint log.data

/-- Witness for claim C4 at a concrete unrecognized-selector log with two padded
    address topics. -/
theorem c4_heuristic_never_raises_witness :
    logC4.topics = unknownTopicL :: [topicA, topicB] ∧
    toLowerL unknownTopicL ∉ knownSelectors ∧
    stepLog initParsedLogs logC4 =
      { initParsedLogs with
        unknownEvents := [heurEvent unknownTopicL [topicA, topicB] word5Data 4],
        contractType := some "Unknown" } ∧
    firstTwoTopicsAreAddresses [topicA, topicB] = true :=
  ⟨rfl, by decide,
    (c4_heuristic_never_raises initParsedLogs logC4 unknownTopicL [topicA, topicB]
      rfl (by decide)).1,
    by decide⟩

/-- Claim C6: the historical backfill runs iff the transaction-scoped
    classification produced zero transfer events; when it runs it issues one
    `getLogs` query for the same contract address over blocks
    `max 0 (height - 1000) .. height` (lower bound clamped to zero), reparses the
    result, and appends only the transfer events found — failures, partial
    transfers, unknown events and `contractType` are left untouched. -/
theorem c6_backfill_trigger_and_window (prov : ProviderModel) (addr : JStr)
    (parsed : ParsedLogs) :
    (parsed.transfers ≠ [] → applyBackfill prov addr parsed = (parsed, none)) ∧
    (parsed.transfers = [] →
      (applyBackfill prov addr parsed).1.transfers =
        (parseLogs (getHistoricalLogs prov addr none).1 addr).transfers ∧
      (applyBackfill prov addr parsed).1.failures = parsed.failures ∧
      (applyBackfill prov addr parsed).1.partTransfers = parsed.partTransfers ∧
      (applyBackfill prov addr parsed).1.unknownEvents = parsed.unknownEvents ∧
      (applyBackfill prov addr parsed).1.contractType = parsed.contractType ∧
      ∀ c : Int, prov.blockNumberRes = .ok c →
        (applyBackfill prov addr parsed).2 =
          some { address := addr, fromBlock := max 0 (c - 1000), toBlock := c }) := by
  constructor
  · intro hne
    have hlen : ¬ parsed.transfers.length = 0 := by
      simpa [List.length_eq_zero] using hne
    simp [applyBackfill, hlen]
  · intro hz
    have hlen : parsed.transfers.length = 0 := by simp [hz]
    refine ⟨?_, ?_, ?_, ?_, ?_, ?_⟩
    · simp [applyBackfill, hlen, hz]
    · simp [applyBackfill, hlen]
    · simp [applyBackfill, hlen]
    · simp [applyBackfill, hlen]
    · simp [applyBackfill, hlen]
    · intro c hc
      simp only [applyBackfill, hlen, if_pos]
      unfold getHistoricalLogs
      rw [hc]
      dsimp only
      split <;> rfl

/-- Witness for claim C6: with one classified transfer the backfill is skipped;
    with none, the query covers blocks 4000-5000 at height 5000. -/
theorem c6_backfill_trigger_and_window_witness :
    applyBackfill provAt5000 caddr (parseLogs [log20] caddr) =
      (parseLogs [log20] caddr, none) ∧
    (applyBackfill provAt5000 caddr initParsedLogs).2 =
      some { address := caddr, fromBlock := 4000, toBlock := 5000 } := by
  constructor
  · exact (c6_backfill_trigger_and_window provAt5000 caddr _).1 (by decide)
  · have h := ((c6_backfill_trigger_and_window provAt5000 caddr initParsedLogs).2
      rfl).2.2.2.2.2 5000 rfl
    rw [h]
    decide

/-- Every tag of the event loop of `analyzeTransactionPattern` is `TOKEN_TRANSFER`
    or `SINGLE_ADDRESS_EVENT` (proof helper). -/
theorem heurPatterns_subset (es : List UnknownEventRec) :
    ∀ x ∈ heurPatterns es, x = "TOKEN_TRANSFER" ∨ x = "SINGLE_ADDRESS_EVENT" := by
  induction es with
  | nil => simp [heurPatterns]
  | cons e es ih =>
    intro x hx
    unfold heurPatterns at hx
    rcases List.mem_append.mp hx with h | h
    · cases ha : e.amount with
      | none =>
        simp only [ha] at h
        by_cases h2 : (e.type == "SingleAddress") = true
        · rw [if_pos h2] at h
          simp at h
          exact .inr h
        · rw [if_neg h2] at h
          simp at h
      | some amt =>
        simp only [ha] at h
        by_cases h1 : ((e.type == "Transfer") = true) ∧ amt ≠ []
        · rw [if_pos h1] at h
          simp at h
          exact .inl h
        · rw [if_neg h1] at h
          by_cases h2 : (e.type == "SingleAddress") = true
          · rw [if_pos h2] at h
            simp at h
            exact .inr h
          · rw [if_neg h2] at h
            simp at h
    · exact ih x h

/-- The event loop never contributes the `ETH_TRANSFER` tag (proof helper). -/
theorem heurPatterns_no_eth (es : List UnknownEventRec) :
    "ETH_TRANSFER" ∉ heurPatterns es := by
  intro hmem
  rcases heurPatterns_subset es _ hmem with h | h <;> exact absurd h (by decide)

/-- The event loop contributes `TOKEN_TRANSFER` iff some heuristic event is a
    `Transfer` with a truthy amount (proof helper). -/
theorem heurPatterns_token_iff (es : List UnknownEventRec) :
    "TOKEN_TRANSFER" ∈ heurPatterns es ↔
      es.any (fun e => e.type == "Transfer" && amountTruthy e.amount) = true := by
  induction es with
  | nil => simp [heurPatterns]
  | cons e es ih =>
    unfold heurPatterns
    rw [List.mem_append, ih, List.any_cons, Bool.or_eq_true]
    cases ha : e.amount with
    | none =>
      by_cases h2 : (e.type == "SingleAddress") = true <;>
        simp [h2, amountTruthy, ha]
    | some amt =>
      cases amt with
      | nil =>
        by_cases h2 : (e.type == "SingleAddress") = true <;>
          simp [h2, amountTruthy, ha, List.isEmpty]
      | cons a as =>
        by_cases h1 : (e.type == "Transfer") = true
        · simp [h1, amountTruthy, ha, List.isEmpty]
        · by_cases h2 : (e.type == "SingleAddress") = true <;>
            simp [h1, h2, amountTruthy, ha]

/-- The pattern list built by the loop is the initial list plus the loop's tags
    (proof helper). -/
theorem patternStep_fold (es : List UnknownEventRec) : ∀ (ps : List String) (v : JStr),
    (es.foldl patternStep (ps, v)).1 = ps ++ heurPatterns es := by
  induction es with
  | nil => intro ps v; simp [heurPatterns]
  | cons e es ih =>
    intro ps v
    rw [List.foldl_cons]
    unfold heurPatterns
    cases ha : e.amount with
    | some amt =>
      by_cases h1 : e.type = "Transfer" ∧ ¬amt = []
      · simp [patternStep, ha, h1, ih, List.append_assoc]
      · by_cases h2 : e.type = "SingleAddress"
        · simp [patternStep, ha, h1, h2, ih, List.append_assoc]
        · simp [patternStep, ha, h1, h2, ih]
    | none =>
      by_cases h2 : e.type = "SingleAddress"
      · simp [patternStep, ha, h2, ih, List.append_assoc]
      · simp [patternStep, ha, h2, ih]

/-- Claim C7, counterexample: a transaction with calldata and zero value whose
    receipt's only log is a schema-classified fungible transfer (value `'5'`).  The
    claim's decision table observes a token-transfer pattern (a schema transfer
    with a non-null amount) and yields `token_transfer`; the code only inspects
    heuristic `unknownEvents`, sees no token pattern, and labels the transaction
    `contract_call`. -/
theorem c7_pattern_counterexample :
    (analyzeTransactionPattern txCall rcptOk (parseLogs [log20] caddr)).transactionType =
      "contract_call" ∧
    specTransactionType txCall (parseLogs [log20] caddr) = "token_transfer" ∧
    ("contract_call" : String) ≠ "token_transfer" := by decide

/-- Claim C7 (amended): `transactionType` follows the fixed priority decision
    table, but the token-transfer signal counts only heuristic `unknownEvents` of
    type `Transfer` with a truthy amount (schema-classified transfers never
    contribute), and contract interaction additionally requires a non-null
    `transaction.to`; a receipt with zero value and no heuristic events yields no
    contributing pattern tags at all (Scenario C). -/
theorem c7_pattern_analyzer_amended (tx : TxInfo) (r : ReceiptInfo) (p : ParsedLogs) :
    (analyzeTransactionPattern tx r p).transactionType = amendedTransactionType tx p ∧
    (tx.value = 0 → p.unknownEvents = [] →
      (analyzeTransactionPattern tx r p).patterns = []) := by
  constructor
  · unfold analyzeTransactionPattern amendedTransactionType
    dsimp only
    by_cases hv : 0 < tx.value <;> by_cases hu : 0 < p.unknownEvents.length
    · simp [hv, hu, patternStep_fold, List.contains, List.elem_iff,
        heurPatterns_no_eth, heurPatterns_token_iff p.unknownEvents]
    · have hnil : p.unknownEvents = [] := List.length_eq_zero.mp (by omega)
      simp [hv, hu, hnil, List.contains, List.elem_iff]
    · simp [hv, hu, patternStep_fold, List.contains, List.elem_iff,
        heurPatterns_no_eth, heurPatterns_token_iff p.unknownEvents]
    · have hnil : p.unknownEvents = [] := List.length_eq_zero.mp (by omega)
      simp [hv, hu, hnil, List.contains, List.elem_iff]
  · intro hv hu
    simp [analyzeTransactionPattern, hv, hu]

/-- Witness for claim C7 (amended) at the Scenario-C input: zero logs, zero value,
    no calldata give the `unknown` label and an empty pattern list. -/
theorem c7_pattern_analyzer_amended_witness :
    (analyzeTransactionPattern txScenC rcptScenC initParsedLogs).transactionType =
      "unknown" ∧
    (analyzeTransactionPattern txScenC rcptScenC initParsedLogs).patterns = [] :=
  ⟨by
    rw [(c7_pattern_analyzer_amended txScenC rcptScenC initParsedLogs).1]
    decide,
   (c7_pattern_analyzer_amended txScenC rcptScenC initParsedLogs).2 rfl rfl⟩

/-- Claim C8, counterexample: with the bundle classified fungible and a read oracle
    where only `symbol()` fails, the `name` field is omitted although its own read
    would succeed — the three metadata reads share one try block, so the symbol
    failure aborts the name and decimals reads, refuting per-read isolation; the
    balance read still proceeds and the run completes. -/
theorem c8_state_reader_counterexample :
    (getContractState readsSymFails caddr (some addrB)
        (parseLogs [log20] caddr)).contractInfo.name = none ∧
    readsSymFails.nameR = .ok "TOK".data ∧
    (getContractState readsSymFails caddr (some addrB)
        (parseLogs [log20] caddr)).balances = [(addrB, "42".data)] :=
  ⟨by decide, rfl, by decide⟩

/-- The balance mapping depends only on the `balanceOf` oracle (proof helper). -/
theorem balancesFor_congr (reads reads2 : StateReads) (ta : Option JStr)
    (h : reads.balanceOfR = reads2.balanceOfR) :
    balancesFor reads ta = balancesFor reads2 ta := by
  unfold balancesFor
  rw [h]

/-- The ownership mapping depends only on the `ownerOf` oracle (proof helper). -/
theorem ownershipFor_congr (reads reads2 : StateReads) (ta : Option JStr)
    (w : String) (ts : List TransferRec) (h : reads.ownerOfR = reads2.ownerOfR) :
    ownershipFor reads ta w ts = ownershipFor reads2 ta w ts := by
  unfold ownershipFor
  rw [h]

/-- A failing `symbol()` read leaves the fungible metadata block empty
    (proof helper). -/
theorem erc20Info_symbol_of_error (reads : StateReads)
    (h : reads.symbolR = .error ()) : (erc20Info reads).symbol = none := by
  simp [erc20Info, h, emptyInfo]

/-- A failing `symbol()` read leaves the non-fungible metadata block empty
    (proof helper). -/
theorem erc721Info_symbol_of_error (reads : StateReads)
    (h : reads.symbolR = .error ()) : (erc721Info reads).symbol = none := by
  simp [erc721Info, h, emptyInfo]

/-- The dispute-contract metadata block never sets `symbol` (proof helper). -/
theorem monadInfo_symbol (reads : StateReads) : (monadInfo reads).symbol = none := by
  unfold monadInfo
  cases h1 : reads.totalSupplyR with
  | error e => simp [emptyInfo]
  | ok t => cases h2 : reads.nextTokenIdR <;> simp [emptyInfo]

/-- Claim C8 (amended): read failures in `getContractState` are contained per try
    block, not per field — the metadata reads share one block (an early failure
    also omits the later metadata fields), while the balance read and the ownership
    lookups are isolated from the metadata oracle and from each other's oracles; a
    failed `symbol` read leaves `symbol` absent (`none`, never an empty string);
    an unset or unrecognized `contractType` returns entirely empty mappings, and
    the reader always returns a state (it never aborts). -/
theorem c8_state_reader_amended (reads reads2 : StateReads) (ca : JStr)
    (ta : Option JStr) (p : ParsedLogs) :
    ((p.contractType ≠ some "ERC20" ∧ p.contractType ≠ some "ERC721" ∧
        p.contractType ≠ some "MonadDummyContract") →
      getContractState reads ca ta p =
        { balances := [], ownership := [], contractInfo := emptyInfo }) ∧
    (reads.symbolR = .error () →
      (getContractState reads ca ta p).contractInfo.symbol = none) ∧
    (reads.balanceOfR = reads2.balanceOfR →
      (getContractState reads ca ta p).balances =
        (getContractState reads2 ca ta p).balances) ∧
    (reads.ownerOfR = reads2.ownerOfR →
      (getContractState reads ca ta p).ownership =
        (getContractState reads2 ca ta p).ownership) := by
  refine ⟨?_, ?_, ?_, ?_⟩
  · rintro ⟨h1, h2, h3⟩
    unfold getContractState
    split
    next heq => exact absurd heq h1
    next heq => exact absurd heq h2
    next heq => exact absurd heq h3
    next => rfl
  · intro h
    unfold getContractState
    split
    next => exact erc20Info_symbol_of_error reads h
    next => exact erc721Info_symbol_of_error reads h
    next => exact monadInfo_symbol reads
    next => rfl
  · intro h
    unfold getContractState
    split
    next => exact balancesFor_congr reads reads2 ta h
    next => exact balancesFor_congr reads reads2 ta h
    next => exact balancesFor_congr reads reads2 ta h
    next => rfl
  · intro h
    unfold getContractState
    split
    next => rfl
    next => exact ownershipFor_congr reads reads2 ta _ _ h
    next => exact ownershipFor_congr reads reads2 ta _ _ h
    next => rfl

/-- Witness for claim C8 (amended): the failing-symbol oracle leaves `symbol`
    absent on a concretely classified fungible bundle. -/
theorem c8_state_reader_amended_witness :
    readsSymFails.symbolR = .error () ∧
    (getContractState readsSymFails caddr (some addrB)
        (parseLogs [log20] caddr)).contractInfo.symbol = none :=
  ⟨rfl, (c8_state_reader_amended readsSymFails readsSymFails caddr (some addrB)
    (parseLogs [log20] caddr)).2.1 rfl⟩

/-- Claim C9: provider initialization attempts the connection (provider
    construction plus the `getNetwork()` probe) up to 3 times; a success on
    attempt `j+1` stops the retrying after exactly `j+1` attempts with sleeps of
    `1000·1, …, 1000·j` ms between attempts, and the fatal
    `'Failed to initialize provider after 3 attempts'` error is raised only after
    all 3 attempts failed, with the two inter-attempt sleeps of 1000 and 2000 ms
    performed. -/
theorem c9_init_provider_retry (probe : Nat → Bool) :
    ((∀ k, k < 3 → probe k = false) → initProvider probe = .failC 3 [1000, 2000]) ∧
    (∀ j, j < 3 → probe j = true → (∀ k, k < j → probe k = false) →
      initProvider probe = .okC (j + 1) ((List.range j).map (fun i => 1000 * (i + 1)))) := by
  constructor
  · intro h
    simp [initProvider, initLoop, h 0 (by norm_num), h 1 (by norm_num),
      h 2 (by norm_num)]
  · intro j hj htrue hprev
    interval_cases j
    · simp [initProvider, initLoop, htrue]
    · simp [initProvider, initLoop, htrue, hprev 0 (by norm_num), List.range_succ]
    · simp [initProvider, initLoop, htrue, hprev 0 (by norm_num),
        hprev 1 (by norm_num), List.range_succ]

/-- Witness for claim C9: a probe that succeeds on the second attempt gives two
    attempts and a single 1-second sleep. -/
theorem c9_init_provider_retry_witness :
    initProvider (fun k => k == 1) = .okC 2 [1000] := by
  have h := (c9_init_provider_retry (fun k => k == 1)).2 1 (by norm_num) (by decide)
    (by intro k hk; interval_cases k; decide)
  rw [h]
  decide
